import Mathlib

/-!
# Verification of the wake_bot clap detector and calibration tool

Shallow embedding of `src/clap_detector.py` (the streaming clap event
detector) and of the analysis part of `calibrate.py` (offline peak
extraction and threshold recommendation), with theorems about the
properties stated in the design document.

Modelling conventions:
* Python floats are modelled as rationals (`ℚ`); every arithmetic
  comparison in the source is an exact comparison here.
* `time.time()` read inside `ClapDetector.process` is modelled as an
  explicit `current_time` parameter (the design document's injected
  clock); all other behaviour follows the source line by line.
* Python `int(x)` truncates toward zero; `pyInt` below reproduces that.
* Python `x ** 0.5` (a real square root) is not rational; the analysis
  pipeline takes the square-root function as an explicit parameter.
-/

namespace WakeBot

/-- The two gesture events `ClapDetector.process` can return
(`"SINGLE"` / `"DOUBLE"` in the source). -/
inductive ClapEvent where
  | single
  | double
  deriving DecidableEq, Repr

/-- State of `ClapDetector` (`src/clap_detector.py`, `__init__`):
configuration fields plus the four transient fields. -/
structure ClapDetector where
  threshold : ℚ
  double_clap_window : ℚ
  min_clap_gap : ℚ
  action_cooldown : ℚ
  last_clap_time : Option ℚ
  last_action_time : ℚ
  is_above_threshold : Bool
  pending_single : Bool
  deriving DecidableEq, Repr

namespace ClapDetector

/-- `ClapDetector.__init__(threshold=3000, double_clap_window_ms=500)`:
stores `threshold`, converts the window from ms to seconds, fixes
`min_clap_gap = 0.1` s and `action_cooldown = 1.5` s, and initialises the
transient fields.  The source performs no validation of its arguments. -/
def init (threshold : ℚ) (double_clap_window_ms : ℚ) : ClapDetector :=
  { threshold := threshold
    double_clap_window := double_clap_window_ms / 1000
    min_clap_gap := 1/10
    action_cooldown := 3/2
    last_clap_time := none
    last_action_time := 0
    is_above_threshold := false
    pending_single := false }

/-- Lines 55–76 of `clap_detector.py`: rising-edge detection.  Reached
only when the cooldown check and the pending-single timeout check did
not return. -/
def processEdge (d : ClapDetector) (current_time rms : ℚ) :
    Option ClapEvent × ClapDetector :=
  if d.threshold < rms then
    if d.is_above_threshold then
      (none, d)
    else
      -- rising edge: mark above threshold
      match d.pending_single, d.last_clap_time with
      | true, some lc =>
          if d.min_clap_gap ≤ current_time - lc ∧
              current_time - lc ≤ d.double_clap_window then
            (some .double,
             { d with is_above_threshold := true
                      pending_single := false
                      last_clap_time := some current_time
                      last_action_time := current_time })
          else
            (none,
             { d with is_above_threshold := true
                      last_clap_time := some current_time
                      pending_single := true })
      | _, _ =>
          (none,
           { d with is_above_threshold := true
                    last_clap_time := some current_time
                    pending_single := true })
  else
    (none, { d with is_above_threshold := false })

/-- `ClapDetector.process(rms)` with the wall-clock read modelled as the
`current_time` parameter.  Returns the emitted event (if any) and the
updated detector state. -/
def process (d : ClapDetector) (current_time rms : ℚ) :
    Option ClapEvent × ClapDetector :=
  if current_time - d.last_action_time < d.action_cooldown then
    (none, d)
  else
    match d.pending_single, d.last_clap_time with
    | true, some lc =>
        if d.double_clap_window < current_time - lc then
          (some .single,
           { d with pending_single := false, last_action_time := current_time })
        else
          processEdge d current_time rms
    | _, _ => processEdge d current_time rms

/-- Feed a list of `(timestamp, rms)` samples through the detector,
returning the per-sample outputs paired with the state after each
sample. -/
def run (d : ClapDetector) : List (ℚ × ℚ) → List (Option ClapEvent × ClapDetector)
  | [] => []
  | (t, rms) :: rest => d.process t rms :: run (d.process t rms).2 rest

/-- Timestamps of the samples on which the detector emitted an event. -/
def runEmits (d : ClapDetector) : List (ℚ × ℚ) → List ℚ
  | [] => []
  | (t, rms) :: rest =>
      match (d.process t rms).1 with
      | some _ => t :: runEmits (d.process t rms).2 rest
      | none => runEmits (d.process t rms).2 rest

end ClapDetector

namespace Calibrate

/-- Python `int(x)`: truncation toward zero. -/
def pyInt (x : ℚ) : ℤ := if x < 0 then ⌈x⌉ else ⌊x⌋

/-- Python `max(list)` for a nonempty list; the sources guard every use
with an emptiness check whose else-branch yields `0`. -/
def listMax : List ℚ → ℚ
  | [] => 0
  | h :: t => t.foldl max h

/-- Inner loop of `detect_claps` (`calibrate.py` lines 46–50): sample
`i` is a peak when no `j ≠ i` with `i-5 ≤ j ≤ i+5` has
`rms_values[j] ≥ rms_values[i]`.  The caller only uses
`5 ≤ i ≤ length - 6`, so every index in the window is in range. -/
def isLocalPeak (rms_values : List ℚ) (i : ℕ) : Prop :=
  ∀ j ∈ List.range' (i - 5) 11, j ≠ i →
    rms_values.getD j 0 < rms_values.getD i 0

instance (rms_values : List ℚ) (i : ℕ) : Decidable (isLocalPeak rms_values i) :=
  List.decidableBAll _ _

/-- Loop body of `detect_claps` (lines 41–55): append index `i` as a
clap when it is an above-threshold local peak and lies more than 0.3 s
after the previously accepted clap. -/
def clapStep (rms_values timestamps : List ℚ) (threshold_preview : ℚ)
    (claps : List (ℚ × ℚ)) (i : ℕ) : List (ℚ × ℚ) :=
  if threshold_preview < rms_values.getD i 0 ∧ isLocalPeak rms_values i then
    match claps.getLast? with
    | none => claps ++ [(timestamps.getD i 0, rms_values.getD i 0)]
    | some p =>
        if (3 : ℚ)/10 < timestamps.getD i 0 - p.1 then
          claps ++ [(timestamps.getD i 0, rms_values.getD i 0)]
        else claps
  else claps

/-- `detect_claps(rms_values, timestamps, threshold_preview)`
(`calibrate.py` lines 26–57): returns `[]` for fewer than 10 samples,
otherwise scans indices `range(5, len - 5)`. -/
def detectClaps (rms_values timestamps : List ℚ) (threshold_preview : ℚ) :
    List (ℚ × ℚ) :=
  if rms_values.length < 10 then []
  else
    (List.range' 5 (rms_values.length - 10)).foldl
      (clapStep rms_values timestamps threshold_preview) []

/-- Peak condition of the design document's peak-extraction description,
restricted (as the code forces) to interior indices: `5 ≤ i`,
`i + 5 < n`, value above the preview threshold, and strictly greater
than every other value within ±5 samples. -/
def specIsPeakAt (rms_values : List ℚ) (threshold_preview : ℚ) (i : ℕ) : Prop :=
  5 ≤ i ∧ i + 5 < rms_values.length ∧
  threshold_preview < rms_values.getD i 0 ∧
  ∀ j ≤ i + 5, i - 5 ≤ j → j ≠ i →
    rms_values.getD j 0 < rms_values.getD i 0

instance (rms_values : List ℚ) (threshold_preview : ℚ) (i : ℕ) :
    Decidable (specIsPeakAt rms_values threshold_preview i) := by
  unfold specIsPeakAt; infer_instance

/-- One acceptance step of the declarative peak-extraction description:
an interior above-threshold strict local maximum is accepted when it
lies more than 0.3 s after the previously accepted peak (or none was
accepted yet). -/
def specStep (rms_values timestamps : List ℚ) (threshold_preview : ℚ)
    (acc : List (ℚ × ℚ)) (i : ℕ) : List (ℚ × ℚ) :=
  if specIsPeakAt rms_values threshold_preview i then
    match acc.getLast? with
    | none => acc ++ [(timestamps.getD i 0, rms_values.getD i 0)]
    | some p =>
        if (3 : ℚ)/10 < timestamps.getD i 0 - p.1 then
          acc ++ [(timestamps.getD i 0, rms_values.getD i 0)]
        else acc
  else acc

/-- Declarative counterpart of `detect_claps`, written from the design
document's words (with the interior-index restriction): scan every
index in order, accepting the candidates that satisfy `specIsPeakAt`
and `specGapOK`. -/
def specDetectClaps (rms_values timestamps : List ℚ) (threshold_preview : ℚ) :
    List (ℚ × ℚ) :=
  (List.range rms_values.length).foldl
    (specStep rms_values timestamps threshold_preview) []

/-- The three recommended thresholds of a calibration run. -/
structure Recommendation where
  conservative : ℤ
  moderate : ℤ
  sensitive : ℤ
  deriving DecidableEq, Repr

/-- The only hard failure of the analysis phase (`calibrate.py` lines
449–451): fewer than 20 collected samples. -/
inductive CalibrationError where
  | insufficientData
  deriving DecidableEq, Repr

/-- Threshold derivation (`calibrate.py` lines 491–517): peak-based
formula when `clap_avg > 0`, session-maximum fallback when the session
maximum exceeds `1.2 × baseline_max`, baseline-only fallback
otherwise.  All products are truncated by Python `int`. -/
def recommendThresholds (clap_avg noise_margin session_max baseline_max : ℚ) :
    Recommendation :=
  if 0 < clap_avg then
    { conservative := max (pyInt (clap_avg * (6/10))) (pyInt (noise_margin * 2))
      moderate := max (pyInt (clap_avg * (5/10))) (pyInt (noise_margin * (3/2)))
      sensitive := max (pyInt (clap_avg * (4/10))) (pyInt (noise_margin * (6/5))) }
  else if baseline_max * (6/5) < session_max then
    { conservative := pyInt (session_max * (7/10))
      moderate := pyInt (session_max * (6/10))
      sensitive := pyInt (session_max * (5/10)) }
  else
    { conservative := pyInt (baseline_max * (5/2))
      moderate := pyInt (baseline_max * 2)
      sensitive := pyInt (baseline_max * (3/2)) }

/-- `max_rms` of the session: starts at `0.0` and is updated with every
sample (`calibrate.py` lines 204, 259). -/
def maxRms (rms_values : List ℚ) : ℚ := rms_values.foldl max 0

/-- `baseline_samples = min(int(len * 0.3), int(10 / 0.05))`
(`calibrate.py` line 454). -/
def baselineSamples (n : ℕ) : ℕ := min (pyInt ((n : ℚ) * (3/10))).toNat 200

/-- `baseline_rms = rms_values[:baseline_samples] if baseline_samples > 0
else []` (line 455). -/
def baselineRms (rms_values : List ℚ) : List ℚ :=
  if 0 < baselineSamples rms_values.length then
    rms_values.take (baselineSamples rms_values.length)
  else []

/-- `clap_phase_rms` (line 456). -/
def clapPhaseRms (rms_values : List ℚ) : List ℚ :=
  if baselineSamples rms_values.length < rms_values.length then
    rms_values.drop (baselineSamples rms_values.length)
  else rms_values

/-- `overall_avg = total_rms / sample_count if sample_count > 0 else 0`
(line 447). -/
def overallAvg (rms_values : List ℚ) : ℚ :=
  if 0 < rms_values.length then rms_values.sum / rms_values.length else 0

/-- `baseline_avg` (line 459). -/
def baselineAvg (rms_values : List ℚ) : ℚ :=
  if baselineRms rms_values ≠ [] then
    (baselineRms rms_values).sum / (baselineRms rms_values).length
  else overallAvg rms_values

/-- `baseline_max` of the analysis phase (line 460). -/
def baselineMax (rms_values : List ℚ) : ℚ :=
  if baselineRms rms_values ≠ [] then listMax (baselineRms rms_values) else 0

/-- `baseline_std` (lines 461–464).  Python's `variance ** 0.5` is a
real square root, which is not rational; the square-root function is
taken as the parameter `sq`. -/
def baselineStd (sq : ℚ → ℚ) (rms_values : List ℚ) : ℚ :=
  if 1 < (baselineRms rms_values).length then
    sq (((baselineRms rms_values).map
        (fun x => (x - baselineAvg rms_values) ^ 2)).sum /
      (baselineRms rms_values).length)
  else 0

/-- `detection_threshold` of the offline fallback (line 473). -/
def offlineThreshold (sq : ℚ → ℚ) (rms_values : List ℚ) : ℚ :=
  max (max (baselineAvg rms_values + baselineStd sq rms_values * 3)
    (baselineMax rms_values * 2)) 30

/-- First offline `detect_claps` attempt (line 474). -/
def offlineClaps1 (sq : ℚ → ℚ) (rms_values timestamps : List ℚ) :
    List (ℚ × ℚ) :=
  detectClaps (clapPhaseRms rms_values)
    (timestamps.drop (baselineSamples rms_values.length))
    (offlineThreshold sq rms_values)

/-- Offline clap detection with the lower-threshold retry
(lines 473–478). -/
def offlineClaps (sq : ℚ → ℚ) (rms_values timestamps : List ℚ) :
    List (ℚ × ℚ) :=
  if offlineClaps1 sq rms_values timestamps = [] ∧
      baselineMax rms_values * (3/2) < maxRms rms_values then
    detectClaps (clapPhaseRms rms_values)
      (timestamps.drop (baselineSamples rms_values.length))
      (max (baselineMax rms_values * (13/10)) 20)
  else offlineClaps1 sq rms_values timestamps

/-- Clap selection (lines 466–478): real-time detections when present,
otherwise the offline fallback. -/
def sessionClaps (sq : ℚ → ℚ) (rms_values timestamps : List ℚ)
    (detected_claps_realtime : List (ℚ × ℚ)) : List (ℚ × ℚ) :=
  if detected_claps_realtime ≠ [] then detected_claps_realtime
  else offlineClaps sq rms_values timestamps

/-- `clap_rms_values` (line 481). -/
def clapVals (sq : ℚ → ℚ) (rms_values timestamps : List ℚ)
    (detected_claps_realtime : List (ℚ × ℚ)) : List ℚ :=
  (sessionClaps sq rms_values timestamps detected_claps_realtime).map Prod.snd

/-- `clap_avg` (line 482). -/
def clapAvg (sq : ℚ → ℚ) (rms_values timestamps : List ℚ)
    (detected_claps_realtime : List (ℚ × ℚ)) : ℚ :=
  if clapVals sq rms_values timestamps detected_claps_realtime ≠ [] then
    (clapVals sq rms_values timestamps detected_claps_realtime).sum /
      (clapVals sq rms_values timestamps detected_claps_realtime).length
  else 0

/-- `noise_margin = baseline_avg + baseline_std * 2` (line 497). -/
def noiseMargin (sq : ℚ → ℚ) (rms_values : List ℚ) : ℚ :=
  baselineAvg rms_values + baselineStd sq rms_values * 2

/-- The analysis performed after recording stops (`calibrate.py` lines
446–519), past the minimum-data guard. -/
def analyzeCore (sq : ℚ → ℚ) (rms_values timestamps : List ℚ)
    (detected_claps_realtime : List (ℚ × ℚ)) : Recommendation :=
  recommendThresholds
    (clapAvg sq rms_values timestamps detected_claps_realtime)
    (noiseMargin sq rms_values)
    (maxRms rms_values)
    (baselineMax rms_values)

/-- The analysis phase including the minimum-data guard
(`calibrate.py` lines 449–451): fewer than 20 samples aborts with the
insufficient-data error, otherwise the recommendation is produced. -/
def analyze (sq : ℚ → ℚ) (rms_values timestamps : List ℚ)
    (detected_claps_realtime : List (ℚ × ℚ)) :
    Except CalibrationError Recommendation :=
  if rms_values.length < 20 then .error .insufficientData
  else .ok (analyzeCore sq rms_values timestamps detected_claps_realtime)

end Calibrate

namespace ClapDetector

/-- Structural facts about a single `process` call, read off the source:
configuration fields never change; `last_action_time` changes to the
call time exactly on emission, which requires the cooldown to have
passed; the cooldown guard short-circuits everything; a `Double` needs
a pending single within the gap/window bounds; and while the signal
stays above threshold no new clap is recorded. -/
theorem process_spec (d : ClapDetector) (t rms : ℚ) :
    ((d.process t rms).2.threshold = d.threshold ∧
     (d.process t rms).2.double_clap_window = d.double_clap_window ∧
     (d.process t rms).2.min_clap_gap = d.min_clap_gap ∧
     (d.process t rms).2.action_cooldown = d.action_cooldown) ∧
    ((d.process t rms).1 = none →
      (d.process t rms).2.last_action_time = d.last_action_time) ∧
    (∀ e, (d.process t rms).1 = some e →
      d.action_cooldown ≤ t - d.last_action_time ∧
      (d.process t rms).2.last_action_time = t) ∧
    (t - d.last_action_time < d.action_cooldown → d.process t rms = (none, d)) ∧
    ((d.process t rms).1 = some .double →
      d.pending_single = true ∧ ∃ lc, d.last_clap_time = some lc ∧
        d.min_clap_gap ≤ t - lc ∧ t - lc ≤ d.double_clap_window) ∧
    (d.is_above_threshold = true → d.threshold < rms →
      (d.process t rms).1 ≠ some .double ∧
      (d.process t rms).2.is_above_threshold = true ∧
      (d.process t rms).2.last_clap_time = d.last_clap_time) := by
  unfold ClapDetector.process ClapDetector.processEdge
  repeat' split
  all_goals
    refine ⟨⟨rfl, rfl, rfl, rfl⟩, ?_, ?_, ?_, ?_, ?_⟩
  all_goals intros
  all_goals simp_all [not_lt]

end ClapDetector

open ClapDetector

/-- C10: a freshly constructed detector has `last_action_time = 0`, so
every call whose injected timestamp is below `action_cooldown = 1.5` s
falls into the initial cooldown: it returns no event and leaves the
state untouched, whatever the loudness. -/
theorem claim_C10 (threshold wms t rms : ℚ) (h : t < 3/2) :
    (ClapDetector.init threshold wms).process t rms
      = (none, ClapDetector.init threshold wms) := by
  have hspec := (process_spec (ClapDetector.init threshold wms) t rms).2.2.2.1
  apply hspec
  simpa [ClapDetector.init] using h

/-- Witness for C10 at `threshold = 3000`, `window = 500` ms, `t = 1`,
`rms = 99999`. -/
theorem claim_C10_witness :
    (ClapDetector.init 3000 500).process 1 99999
      = (none, ClapDetector.init 3000 500) :=
  claim_C10 3000 500 1 99999 (by norm_num)

/-- C5: `process` is total — every call returns exactly one of no
event, `Single`, or `Double` — and a `Double` is only returned when a
pending first clap within `[min_clap_gap, double_clap_window]` of the
call time precedes it. -/
theorem claim_C5 (d : ClapDetector) (t rms : ℚ) :
    ((d.process t rms).1 = none ∨ (d.process t rms).1 = some .single ∨
      (d.process t rms).1 = some .double) ∧
    ((d.process t rms).1 = some .double →
      d.pending_single = true ∧ ∃ lc, d.last_clap_time = some lc ∧
        d.min_clap_gap ≤ t - lc ∧ t - lc ≤ d.double_clap_window) := by
  refine ⟨?_, (process_spec d t rms).2.2.2.2.1⟩
  rcases h : (d.process t rms).1 with _ | e
  · exact Or.inl rfl
  · cases e
    · exact Or.inr (Or.inl rfl)
    · exact Or.inr (Or.inr rfl)

/-- Witness for C5 at a concrete call: the fresh detector processing a
loud sample at `t = 10`. -/
theorem claim_C5_witness :
    (((ClapDetector.init 3000 500).process 10 5000).1 = none ∨
      ((ClapDetector.init 3000 500).process 10 5000).1 = some .single ∨
      ((ClapDetector.init 3000 500).process 10 5000).1 = some .double) ∧
    (((ClapDetector.init 3000 500).process 10 5000).1 = some .double →
      (ClapDetector.init 3000 500).pending_single = true ∧
      ∃ lc, (ClapDetector.init 3000 500).last_clap_time = some lc ∧
        (ClapDetector.init 3000 500).min_clap_gap ≤ 10 - lc ∧
        10 - lc ≤ (ClapDetector.init 3000 500).double_clap_window) :=
  claim_C5 (ClapDetector.init 3000 500) 10 5000

/-- Counterexample to C6 as stated: constructing a detector with a
negative threshold and a negative window is accepted — `__init__`
performs no validation and raises no `InvalidConfiguration`; the
negative values are stored as given (no clamping, no rejection). -/
theorem claim_C6_cex :
    (ClapDetector.init (-5) (-100)).threshold = -5 ∧
    (ClapDetector.init (-5) (-100)).double_clap_window = -1/10 ∧
    (ClapDetector.init (-5) (-100)).min_clap_gap = 1/10 ∧
    (ClapDetector.init (-5) (-100)).action_cooldown = 3/2 := by
  refine ⟨rfl, ?_, rfl, rfl⟩
  norm_num [ClapDetector.init]

/-- C6 (amended): construction takes only `threshold` and
`double_clap_window_ms`; `min_clap_gap` (0.1 s) and `action_cooldown`
(1.5 s) are fixed constants, not parameters; no value is validated,
rejected or clamped — any threshold and window, positive or not, is
stored as given (the window converted from ms to seconds). -/
theorem claim_C6 (threshold wms : ℚ) :
    (ClapDetector.init threshold wms).threshold = threshold ∧
    (ClapDetector.init threshold wms).double_clap_window = wms / 1000 ∧
    (ClapDetector.init threshold wms).min_clap_gap = 1/10 ∧
    (ClapDetector.init threshold wms).action_cooldown = 3/2 ∧
    (ClapDetector.init threshold wms).last_clap_time = none ∧
    (ClapDetector.init threshold wms).last_action_time = 0 ∧
    (ClapDetector.init threshold wms).is_above_threshold = false ∧
    (ClapDetector.init threshold wms).pending_single = false :=
  ⟨rfl, rfl, rfl, rfl, rfl, rfl, rfl, rfl⟩

/-- C1 (amended): with a pending first clap recorded at `t1` and the
signal re-armed (below threshold since), a second rising edge at `t2`
outside the cooldown yields `Double` iff
`min_clap_gap ≤ t2 - t1 ≤ double_clap_window`.  When `t2 - t1` is below
`min_clap_gap` (and within the window) no event is emitted and the
pending single is re-timed to `t2`.  When `t2 - t1` exceeds the window
the call emits the first clap's lazy `Single` and performs no
rising-edge bookkeeping: no fresh pending single is started. -/
theorem claim_C1 (d : ClapDetector) (t1 t2 rms : ℚ)
    (hp : d.pending_single = true) (hl : d.last_clap_time = some t1)
    (ha : d.is_above_threshold = false)
    (hc : d.action_cooldown ≤ t2 - d.last_action_time)
    (hr : d.threshold < rms) :
    (d.min_clap_gap ≤ t2 - t1 ∧ t2 - t1 ≤ d.double_clap_window →
      d.process t2 rms = (some .double,
        { d with is_above_threshold := true, pending_single := false,
                 last_clap_time := some t2, last_action_time := t2 })) ∧
    (t2 - t1 ≤ d.double_clap_window ∧ t2 - t1 < d.min_clap_gap →
      d.process t2 rms = (none,
        { d with is_above_threshold := true, last_clap_time := some t2,
                 pending_single := true })) ∧
    (d.double_clap_window < t2 - t1 →
      d.process t2 rms = (some .single,
        { d with pending_single := false, last_action_time := t2 })) := by
  have hc' : ¬ (t2 - d.last_action_time < d.action_cooldown) := not_lt.mpr hc
  refine ⟨fun hcase => ?_, fun hcase => ?_, fun hcase => ?_⟩
  · unfold ClapDetector.process ClapDetector.processEdge
    simp [hc', hp, hl, ha, hr, hcase.1, hcase.2, not_lt.mpr hcase.2]
  · unfold ClapDetector.process ClapDetector.processEdge
    simp [hc', hp, hl, ha, hr, not_lt.mpr hcase.1, not_le.mpr hcase.2]
  · unfold ClapDetector.process ClapDetector.processEdge
    simp [hc', hp, hl, hcase]

/-- Witness for C1: a detector with a pending single from `t1 = 10`,
hit by a second edge at `t2 = 10.3` with the default configuration. -/
theorem claim_C1_witness :
    (let d : ClapDetector :=
      { threshold := 3000, double_clap_window := 1/2, min_clap_gap := 1/10,
        action_cooldown := 3/2, last_clap_time := some 10,
        last_action_time := 0, is_above_threshold := false,
        pending_single := true }
     (d.min_clap_gap ≤ (103/10 : ℚ) - 10 ∧
        (103/10 : ℚ) - 10 ≤ d.double_clap_window →
      d.process (103/10) 5000 = (some .double,
        { d with is_above_threshold := true, pending_single := false,
                 last_clap_time := some (103/10),
                 last_action_time := 103/10 })) ∧
    ((103/10 : ℚ) - 10 ≤ d.double_clap_window ∧
        (103/10 : ℚ) - 10 < d.min_clap_gap →
      d.process (103/10) 5000 = (none,
        { d with is_above_threshold := true, last_clap_time := some (103/10),
                 pending_single := true })) ∧
    (d.double_clap_window < (103/10 : ℚ) - 10 →
      d.process (103/10) 5000 = (some .single,
        { d with pending_single := false, last_action_time := 103/10 }))) :=
  claim_C1 _ 10 (103/10) 5000 rfl rfl rfl (by norm_num) (by norm_num)

/-- Counterexample to C1 as stated: two rising edges 0.8 s apart
(window 0.5 s, no cooldown in effect at either call).  The second
edge's call emits the lazy `Single`, but it does **not** start a fresh
pending single: afterwards `pending_single` is `false` and
`last_clap_time` is still the first edge's timestamp `10`, not `10.8`. -/
theorem claim_C1_cex :
    (ClapDetector.run (ClapDetector.init 3000 500)
        [(10, 5000), (51/5, 0), (54/5, 5000)]).map
        (fun r => (r.1, r.2.pending_single, r.2.last_clap_time))
      = [(none, true, some 10), (none, true, some 10),
         (some .single, false, some 10)] := by
  norm_num [ClapDetector.run, ClapDetector.process, ClapDetector.processEdge,
    ClapDetector.init]

/-- Counterexample to C3 as stated: threshold 3000, window 500 ms, gap
100 ms; the signal crosses the threshold at `t0 = 10.0` and again at
`t0 + 0.05` (time origin shifted past the initial cooldown).  At
`t = 10.52` — the first processed sample more than 500 ms after the
first crossing, with no further qualifying crossing — the claim
predicts the lazy `Single`; the code emits nothing, because the
too-close second crossing re-timed the pending single to `10.05`. -/
theorem claim_C3_cex :
    (ClapDetector.run (ClapDetector.init 3000 500)
        [(10, 5000), (501/50, 0), (201/20, 5000), (263/25, 0)]).map Prod.fst
      = [none, none, none, none] ∧ (1/2 : ℚ) < 263/25 - 10 := by
  refine ⟨?_, by norm_num⟩
  norm_num [ClapDetector.run, ClapDetector.process, ClapDetector.processEdge,
    ClapDetector.init]

/-- C3 (amended): same configuration, crossings at `t0 = 10.0` and
`t0 + 0.05` (below `min_clap_gap`): no `Double` is emitted, and the
lazy `Single` appears on the first processed sample more than 500 ms
after the **second** crossing (at `10.56`, not already at `10.52`),
because the too-close crossing re-times the pending single.  With the
second crossing at `t0 + 0.3` instead, `Double` is emitted at that
crossing. -/
theorem claim_C3 :
    (ClapDetector.run (ClapDetector.init 3000 500)
        [(10, 5000), (501/50, 0), (201/20, 5000), (263/25, 0),
         (264/25, 0)]).map Prod.fst
      = [none, none, none, none, some .single] ∧
    (ClapDetector.run (ClapDetector.init 3000 500)
        [(10, 5000), (101/10, 0), (103/10, 5000)]).map Prod.fst
      = [none, none, some .double] := by
  constructor <;>
    norm_num [ClapDetector.run, ClapDetector.process, ClapDetector.processEdge,
      ClapDetector.init]

/-- Helper for C2: every emission timestamp lies at least one cooldown
after the state's `last_action_time`, and emission timestamps are
pairwise at least one cooldown apart. -/
theorem runEmits_spec (samples : List (ℚ × ℚ)) :
    ∀ (d : ClapDetector), 0 ≤ d.action_cooldown →
      (∀ b ∈ ClapDetector.runEmits d samples,
        d.last_action_time + d.action_cooldown ≤ b) ∧
      (ClapDetector.runEmits d samples).Pairwise
        (fun a b => a + d.action_cooldown ≤ b) := by
  induction samples with
  | nil => intro d _; simp [ClapDetector.runEmits]
  | cons s rest ih =>
    intro d hcd
    obtain ⟨t, rms⟩ := s
    have hcfg := (process_spec d t rms).1.2.2.2
    have ih' := ih (d.process t rms).2 (hcfg ▸ hcd)
    rw [hcfg] at ih'
    rcases hout : (d.process t rms).1 with _ | e
    · have hla := (process_spec d t rms).2.1 hout
      rw [hla] at ih'
      simpa only [ClapDetector.runEmits, hout] using ih'
    · have hem := (process_spec d t rms).2.2.1 e hout
      rw [hem.2] at ih'
      have ht : d.last_action_time + d.action_cooldown ≤ t := by
        linarith [hem.1]
      simp only [ClapDetector.runEmits, hout]
      refine ⟨?_, ?_⟩
      · intro b hb
        rcases List.mem_cons.mp hb with hb | hb
        · exact hb ▸ ht
        · have := ih'.1 b hb
          linarith
      · refine List.pairwise_cons.mpr ⟨fun b hb => ?_, ih'.2⟩
        have := ih'.1 b hb
        linarith

/-- C2: over any sample sequence, the timestamps of emitted events
(`Single` or `Double`, in any combination) are pairwise at least
`action_cooldown` apart; and a call within the cooldown of the last
emission never emits. -/
theorem claim_C2 (d : ClapDetector) (samples : List (ℚ × ℚ))
    (hcd : 0 ≤ d.action_cooldown) :
    (ClapDetector.runEmits d samples).Pairwise
      (fun a b => a + d.action_cooldown ≤ b) ∧
    ∀ t rms, t - d.last_action_time < d.action_cooldown →
      (d.process t rms).1 = none := by
  refine ⟨(runEmits_spec samples d hcd).2, fun t rms h => ?_⟩
  rw [(process_spec d t rms).2.2.2.1 h]

/-- Witness for C2: the default detector over a sequence producing a
`Double` and then a `Single`, with the per-call guard checked at
`t = 1` on the fresh detector. -/
theorem claim_C2_witness :
    (ClapDetector.runEmits (ClapDetector.init 3000 500)
        [(10, 5000), (101/10, 0), (103/10, 5000), (12, 0), (13, 5000),
         (132/10, 0), (14, 0)]).Pairwise
      (fun a b => a + (ClapDetector.init 3000 500).action_cooldown ≤ b) ∧
    ∀ t rms, t - (ClapDetector.init 3000 500).last_action_time <
        (ClapDetector.init 3000 500).action_cooldown →
      ((ClapDetector.init 3000 500).process t rms).1 = none :=
  claim_C2 (ClapDetector.init 3000 500) _ (by norm_num [ClapDetector.init])

/-- Helper for C4: `process` reduces to the rising-edge logic when the
cooldown has passed and no pending single has expired. -/
theorem process_eq_edge (d : ClapDetector) (t rms : ℚ)
    (hc : d.action_cooldown ≤ t - d.last_action_time)
    (hexp : d.pending_single = true → ∀ lc, d.last_clap_time = some lc →
      t - lc ≤ d.double_clap_window) :
    d.process t rms = d.processEdge t rms := by
  unfold ClapDetector.process
  rw [if_neg (not_lt.mpr hc)]
  split
  · rename_i lc hpend hlc
    rw [if_neg (not_lt.mpr (hexp hpend lc hlc))]
  · rfl

/-- Helper for C4: a rising edge (signal above threshold, flag clear)
always sets the flag and records the clap time, whatever else it
does. -/
theorem processEdge_fresh (d : ClapDetector) (t rms : ℚ)
    (ha : d.is_above_threshold = false) (hr : d.threshold < rms) :
    (d.processEdge t rms).2.is_above_threshold = true ∧
    (d.processEdge t rms).2.last_clap_time = some t := by
  unfold ClapDetector.processEdge
  rw [if_pos hr]
  simp only [ha, Bool.false_eq_true, if_false]
  split
  · split <;> exact ⟨rfl, rfl⟩
  · exact ⟨rfl, rfl⟩

/-- Helper for C4: while the flag is set and every sample stays above
threshold, no sample emits a `Double`, the flag stays set, and the
recorded clap time never changes. -/
theorem run_above (rest : List (ℚ × ℚ)) :
    ∀ (d : ClapDetector), d.is_above_threshold = true →
      (∀ p ∈ rest, d.threshold < p.2) →
      ∀ r ∈ ClapDetector.run d rest,
        r.1 ≠ some .double ∧ r.2.is_above_threshold = true ∧
        r.2.last_clap_time = d.last_clap_time := by
  induction rest with
  | nil => intro d _ _ r hr; simp [ClapDetector.run] at hr
  | cons s rest ih =>
    intro d hab hrest r hr
    obtain ⟨t, rms⟩ := s
    have hs := (process_spec d t rms).2.2.2.2.2 hab (hrest (t, rms) (by simp))
    rcases List.mem_cons.mp hr with hr | hr
    · exact hr ▸ hs
    · have hthr := (process_spec d t rms).1.1
      have := ih (d.process t rms).2 hs.2.1
        (fun p hp => hthr ▸ hrest p (List.mem_cons_of_mem _ hp)) r hr
      exact ⟨this.1, this.2.1, this.2.2 ▸ hs.2.2⟩

/-- C4: a run of consecutive above-threshold samples starting from an
armed detector (flag clear, cooldown passed, no pending single about
to expire) registers exactly one rising edge: the first sample sets
the flag and records its timestamp as the clap time, and every
subsequent above-threshold sample leaves the flag set, never changes
the recorded clap time, and never emits a `Double`. -/
theorem claim_C4 (d : ClapDetector) (t0 rms0 : ℚ) (rest : List (ℚ × ℚ))
    (ha : d.is_above_threshold = false)
    (hc : d.action_cooldown ≤ t0 - d.last_action_time)
    (hexp : d.pending_single = true → ∀ lc, d.last_clap_time = some lc →
      t0 - lc ≤ d.double_clap_window)
    (hr0 : d.threshold < rms0)
    (hrest : ∀ p ∈ rest, d.threshold < p.2) :
    ((d.process t0 rms0).2.is_above_threshold = true ∧
     (d.process t0 rms0).2.last_clap_time = some t0) ∧
    ∀ r ∈ ClapDetector.run (d.process t0 rms0).2 rest,
      r.1 ≠ some .double ∧ r.2.is_above_threshold = true ∧
      r.2.last_clap_time = some t0 := by
  have h1 : d.process t0 rms0 = d.processEdge t0 rms0 :=
    process_eq_edge d t0 rms0 hc hexp
  have h2 := processEdge_fresh d t0 rms0 ha hr0
  rw [← h1] at h2
  refine ⟨h2, fun r hr => ?_⟩
  have hthr := (process_spec d t0 rms0).1.1
  have := run_above rest (d.process t0 rms0).2 h2.1
    (fun p hp => hthr ▸ hrest p hp) r hr
  exact ⟨this.1, this.2.1, this.2.2 ▸ h2.2⟩

/-- Witness for C4: fresh detector, a three-sample sustained excursion
above the default threshold starting at `t = 10`. -/
theorem claim_C4_witness :
    (((ClapDetector.init 3000 500).process 10 5000).2.is_above_threshold
        = true ∧
     ((ClapDetector.init 3000 500).process 10 5000).2.last_clap_time
        = some 10) ∧
    ∀ r ∈ ClapDetector.run ((ClapDetector.init 3000 500).process 10 5000).2
        [(101/10, 4000), (102/10, 6000)],
      r.1 ≠ some .double ∧ r.2.is_above_threshold = true ∧
      r.2.last_clap_time = some 10 :=
  claim_C4 (ClapDetector.init 3000 500) 10 5000 [(101/10, 4000), (102/10, 6000)]
    rfl (by norm_num [ClapDetector.init])
    (fun _ lc hlc => nomatch hlc)
    (by norm_num [ClapDetector.init])
    (by
      intro p hp
      simp only [List.mem_cons, List.not_mem_nil, or_false] at hp
      rcases hp with rfl | rfl <;> norm_num [ClapDetector.init])

namespace Calibrate

/-- C7: the minimum-data guard — with 19 or fewer collected samples the
analysis aborts with the insufficient-data error and produces no
recommendation; with exactly 20 samples it proceeds and produces the
(possibly degraded) recommendation. -/
theorem claim_C7 (sq : ℚ → ℚ) (rms_values timestamps : List ℚ)
    (detected_claps_realtime : List (ℚ × ℚ)) :
    (rms_values.length ≤ 19 →
      analyze sq rms_values timestamps detected_claps_realtime
        = .error .insufficientData) ∧
    (rms_values.length = 20 →
      analyze sq rms_values timestamps detected_claps_realtime
        = .ok (analyzeCore sq rms_values timestamps detected_claps_realtime)) := by
  constructor
  · intro h; unfold analyze; rw [if_pos (by omega)]
  · intro h; unfold analyze; rw [if_neg (by omega)]

/-- Witness for C7: a 19-sample session errors out, a 20-sample session
yields a recommendation. -/
theorem claim_C7_witness :
    analyze (fun _ => 0) (List.replicate 19 5) (List.replicate 19 0) []
      = .error .insufficientData ∧
    analyze (fun _ => 0) (List.replicate 20 5) (List.replicate 20 0) []
      = .ok (analyzeCore (fun _ => 0) (List.replicate 20 5)
          (List.replicate 20 0) []) :=
  ⟨(claim_C7 _ _ _ _).1 (by simp),
   (claim_C7 _ _ _ _).2 (by simp)⟩

/-- `pyInt` agrees with the floor on nonnegative arguments. -/
theorem pyInt_of_nonneg {x : ℚ} (h : 0 ≤ x) : pyInt x = ⌊x⌋ :=
  if_neg (not_lt.mpr h)

/-- `pyInt` is monotone on nonnegative arguments. -/
theorem pyInt_mono {x y : ℚ} (hx : 0 ≤ x) (hxy : x ≤ y) :
    pyInt x ≤ pyInt y := by
  rw [pyInt_of_nonneg hx, pyInt_of_nonneg (hx.trans hxy)]
  exact Int.floor_le_floor hxy

/-- Core of C8: on every derivation branch the three thresholds are
monotone, provided the statistics feeding them are nonnegative. -/
theorem recommendThresholds_mono (a m sm bm : ℚ) (ha : 0 ≤ a) (hm : 0 ≤ m)
    (hsm : 0 ≤ sm) (hbm : 0 ≤ bm) :
    (recommendThresholds a m sm bm).sensitive
        ≤ (recommendThresholds a m sm bm).moderate ∧
    (recommendThresholds a m sm bm).moderate
        ≤ (recommendThresholds a m sm bm).conservative := by
  unfold recommendThresholds
  split
  · constructor
    · exact max_le_max
        (pyInt_mono (by positivity)
          (mul_le_mul_of_nonneg_left (by norm_num) ha))
        (pyInt_mono (by positivity)
          (mul_le_mul_of_nonneg_left (by norm_num) hm))
    · exact max_le_max
        (pyInt_mono (by positivity)
          (mul_le_mul_of_nonneg_left (by norm_num) ha))
        (pyInt_mono (by positivity)
          (mul_le_mul_of_nonneg_left (by norm_num) hm))
  · split
    · constructor <;>
        exact pyInt_mono (by positivity)
          (mul_le_mul_of_nonneg_left (by norm_num) hsm)
    · constructor <;>
        exact pyInt_mono (by positivity)
          (mul_le_mul_of_nonneg_left (by norm_num) hbm)

/-- The seed of a `foldl max` bounds the result from below. -/
theorem le_foldl_max (l : List ℚ) : ∀ a : ℚ, a ≤ l.foldl max a := by
  induction l with
  | nil => intro a; simp
  | cons b l ih =>
    intro a
    simpa using (le_max_left a b).trans (ih (max a b))

/-- The session maximum starts at `0.0`, so it is never negative. -/
theorem maxRms_nonneg (l : List ℚ) : 0 ≤ maxRms l := le_foldl_max l 0

/-- `listMax` of a list of nonnegative values is nonnegative. -/
theorem listMax_nonneg (l : List ℚ) (h : ∀ v ∈ l, 0 ≤ v) : 0 ≤ listMax l := by
  cases l with
  | nil => simp [listMax]
  | cons a t => exact (h a (by simp)).trans (le_foldl_max t a)

/-- Baseline samples are session samples. -/
theorem baselineRms_subset (rms_values : List ℚ) :
    baselineRms rms_values ⊆ rms_values := by
  unfold baselineRms
  split
  · exact List.take_subset _ _
  · intro x hx; simp at hx

/-- The baseline average of a nonnegative session is nonnegative. -/
theorem baselineAvg_nonneg (rms_values : List ℚ)
    (h : ∀ v ∈ rms_values, 0 ≤ v) : 0 ≤ baselineAvg rms_values := by
  unfold baselineAvg
  split
  · exact div_nonneg
      (List.sum_nonneg fun v hv => h v (baselineRms_subset _ hv))
      (by positivity)
  · unfold overallAvg
    split
    · exact div_nonneg (List.sum_nonneg h) (by positivity)
    · exact le_refl 0

/-- The baseline maximum of a nonnegative session is nonnegative. -/
theorem baselineMax_nonneg (rms_values : List ℚ)
    (h : ∀ v ∈ rms_values, 0 ≤ v) : 0 ≤ baselineMax rms_values := by
  unfold baselineMax
  split
  · exact listMax_nonneg _ fun v hv => h v (baselineRms_subset _ hv)
  · exact le_refl 0

/-- With a nonnegative square root, the baseline standard deviation is
nonnegative. -/
theorem baselineStd_nonneg (sq : ℚ → ℚ) (rms_values : List ℚ)
    (hsq : ∀ x, 0 ≤ sq x) : 0 ≤ baselineStd sq rms_values := by
  unfold baselineStd
  split
  · exact hsq _
  · exact le_refl 0

/-- The noise margin of a nonnegative session is nonnegative. -/
theorem noiseMargin_nonneg (sq : ℚ → ℚ) (rms_values : List ℚ)
    (hsq : ∀ x, 0 ≤ sq x) (h : ∀ v ∈ rms_values, 0 ≤ v) :
    0 ≤ noiseMargin sq rms_values :=
  add_nonneg (baselineAvg_nonneg _ h)
    (mul_nonneg (baselineStd_nonneg _ _ hsq) (by norm_num))

/-- Every clap accepted by a `clapStep` pass has value above the
detection threshold. -/
theorem clapStep_gt (rms_values timestamps : List ℚ) (thr : ℚ)
    (acc : List (ℚ × ℚ)) (i : ℕ) (h : ∀ p ∈ acc, thr < p.2) :
    ∀ p ∈ clapStep rms_values timestamps thr acc i, thr < p.2 := by
  unfold clapStep
  split
  · rename_i hcond
    split
    · intro p hp
      rcases List.mem_append.mp hp with hp | hp
      · exact h p hp
      · simp only [List.mem_singleton] at hp
        subst hp; exact hcond.1
    · split
      · intro p hp
        rcases List.mem_append.mp hp with hp | hp
        · exact h p hp
        · simp only [List.mem_singleton] at hp
          subst hp; exact hcond.1
      · exact h
  · exact h

/-- Every clap reported by `detect_claps` has value above its
detection threshold. -/
theorem detectClaps_gt (rms_values timestamps : List ℚ) (thr : ℚ) :
    ∀ p ∈ detectClaps rms_values timestamps thr, thr < p.2 := by
  unfold detectClaps
  split
  · simp
  · have hfold : ∀ (idxs : List ℕ) (acc : List (ℚ × ℚ)),
        (∀ p ∈ acc, thr < p.2) →
        ∀ p ∈ idxs.foldl (clapStep rms_values timestamps thr) acc, thr < p.2 := by
      intro idxs
      induction idxs with
      | nil => intro acc hacc; simpa using hacc
      | cons i idxs ih =>
        intro acc hacc
        exact ih _ (clapStep_gt _ _ _ _ _ hacc)
    exact hfold _ [] (by simp)

/-- Every value among the session's selected claps is nonnegative,
given nonnegative real-time detections. -/
theorem sessionClaps_nonneg (sq : ℚ → ℚ) (rms_values timestamps : List ℚ)
    (detected_claps_realtime : List (ℚ × ℚ))
    (hrt : ∀ p ∈ detected_claps_realtime, 0 ≤ p.2) :
    ∀ p ∈ sessionClaps sq rms_values timestamps detected_claps_realtime,
      0 ≤ p.2 := by
  unfold sessionClaps
  split
  · exact hrt
  · unfold offlineClaps
    split
    · intro p hp
      have h1 := detectClaps_gt _ _ _ p hp
      have h2 : (20 : ℚ) ≤ max (baselineMax rms_values * (13/10)) 20 :=
        le_max_right _ _
      linarith
    · intro p hp
      have h1 := detectClaps_gt _ _ _ p hp
      have h2 : (30 : ℚ) ≤ offlineThreshold sq rms_values := le_max_right _ _
      unfold offlineClaps1 at hp
      have h1 := detectClaps_gt _ _ _ p hp
      linarith

/-- The clap average is nonnegative for nonnegative inputs. -/
theorem clapAvg_nonneg (sq : ℚ → ℚ) (rms_values timestamps : List ℚ)
    (detected_claps_realtime : List (ℚ × ℚ))
    (hrt : ∀ p ∈ detected_claps_realtime, 0 ≤ p.2) :
    0 ≤ clapAvg sq rms_values timestamps detected_claps_realtime := by
  unfold clapAvg
  split
  · refine div_nonneg (List.sum_nonneg fun v hv => ?_) (by positivity)
    unfold clapVals at hv
    rcases List.mem_map.mp hv with ⟨p, hp, rfl⟩
    exact sessionClaps_nonneg sq _ _ _ hrt p hp
  · exact le_refl 0

/-- C8: for every session passing the minimum-data guard, with
nonnegative loudness samples, nonnegative real-time clap values, and a
nonnegative square-root function, the recommendation satisfies
`sensitive ≤ moderate ≤ conservative` — on every derivation branch,
after `int` truncation. -/
theorem claim_C8 (sq : ℚ → ℚ) (rms_values timestamps : List ℚ)
    (detected_claps_realtime : List (ℚ × ℚ)) (r : Recommendation)
    (hsq : ∀ x, 0 ≤ sq x) (hv : ∀ v ∈ rms_values, 0 ≤ v)
    (hrt : ∀ p ∈ detected_claps_realtime, 0 ≤ p.2)
    (hok : analyze sq rms_values timestamps detected_claps_realtime = .ok r) :
    r.sensitive ≤ r.moderate ∧ r.moderate ≤ r.conservative := by
  unfold analyze at hok
  split at hok
  · exact absurd hok (by simp)
  · injection hok with hok
    rw [← hok]
    unfold analyzeCore
    exact recommendThresholds_mono _ _ _ _
      (clapAvg_nonneg _ _ _ _ hrt)
      (noiseMargin_nonneg _ _ hsq hv)
      (maxRms_nonneg _)
      (baselineMax_nonneg _ hv)

/-- Witness for C8: a 20-sample session at constant loudness 5 with one
real-time clap of loudness 100 yields the recommendation
`⟨60, 50, 40⟩`, which is monotone. -/
theorem claim_C8_witness :
    (Recommendation.mk 60 50 40).sensitive
        ≤ (Recommendation.mk 60 50 40).moderate ∧
    (Recommendation.mk 60 50 40).moderate
        ≤ (Recommendation.mk 60 50 40).conservative :=
  claim_C8 (fun _ => 0)
    [5, 5, 5, 5, 5, 5, 5, 5, 5, 5, 5, 5, 5, 5, 5, 5, 5, 5, 5, 5]
    [0, 0, 0, 0, 0, 0, 0, 0, 0, 0, 0, 0, 0, 0, 0, 0, 0, 0, 0, 0]
    [(0, 100)] (Recommendation.mk 60 50 40)
    (fun _ => le_refl 0)
    (by intro v hv; simp at hv; subst hv; norm_num)
    (by intro p hp; simp at hp; subst hp; norm_num)
    (by
      norm_num [analyze, analyzeCore, recommendThresholds, clapAvg, clapVals,
        sessionClaps, noiseMargin, baselineAvg, baselineMax, baselineStd,
        baselineRms, baselineSamples, maxRms, overallAvg, listMax, pyInt,
        Int.toNat, List.cons_ne_nil])

/-- A `specStep` at a non-interior index accepts nothing. -/
theorem specStep_id (rms_values timestamps : List ℚ) (threshold_preview : ℚ)
    (acc : List (ℚ × ℚ)) (i : ℕ)
    (h : i < 5 ∨ rms_values.length ≤ i + 5) :
    specStep rms_values timestamps threshold_preview acc i = acc := by
  unfold specStep
  rw [if_neg]
  rintro ⟨h5, hn, -, -⟩
  omega

/-- Folding `specStep` over non-interior indices changes nothing. -/
theorem foldl_specStep_id (rms_values timestamps : List ℚ)
    (threshold_preview : ℚ) (idxs : List ℕ)
    (h : ∀ i ∈ idxs, i < 5 ∨ rms_values.length ≤ i + 5) :
    ∀ acc, idxs.foldl (specStep rms_values timestamps threshold_preview) acc
      = acc := by
  induction idxs with
  | nil => intro acc; rfl
  | cons i idxs ih =>
    intro acc
    rw [List.foldl_cons, specStep_id _ _ _ _ _ (h i (by simp)),
      ih fun j hj => h j (List.mem_cons_of_mem _ hj)]

/-- On interior indices the source's loop body agrees with the
declarative acceptance step. -/
theorem clapStep_eq_specStep (rms_values timestamps : List ℚ)
    (threshold_preview : ℚ) (acc : List (ℚ × ℚ)) (i : ℕ)
    (h5 : 5 ≤ i) (hn : i + 5 < rms_values.length) :
    clapStep rms_values timestamps threshold_preview acc i
      = specStep rms_values timestamps threshold_preview acc i := by
  have hcond : (threshold_preview < rms_values.getD i 0 ∧
      isLocalPeak rms_values i) ↔
      specIsPeakAt rms_values threshold_preview i := by
    unfold isLocalPeak specIsPeakAt
    constructor
    · rintro ⟨h1, h2⟩
      refine ⟨h5, hn, h1, fun j hj1 hj2 hj3 => h2 j ?_ hj3⟩
      rw [List.mem_range'_1]
      omega
    · rintro ⟨-, -, h1, h2⟩
      refine ⟨h1, fun j hj hne => ?_⟩
      rw [List.mem_range'_1] at hj
      exact h2 j (by omega) (by omega) hne
  unfold clapStep specStep
  by_cases hc : specIsPeakAt rms_values threshold_preview i
  · rw [if_pos (hcond.mpr hc), if_pos hc]
  · rw [if_neg fun hx => hc (hcond.mp hx), if_neg hc]

/-- Folding the source's loop body and the declarative step over
interior indices agree. -/
theorem foldl_clapStep_eq (rms_values timestamps : List ℚ)
    (threshold_preview : ℚ) (idxs : List ℕ)
    (h : ∀ i ∈ idxs, 5 ≤ i ∧ i + 5 < rms_values.length) :
    ∀ acc, idxs.foldl (clapStep rms_values timestamps threshold_preview) acc
      = idxs.foldl (specStep rms_values timestamps threshold_preview) acc := by
  induction idxs with
  | nil => intro acc; rfl
  | cons i idxs ih =>
    intro acc
    rw [List.foldl_cons, List.foldl_cons,
      clapStep_eq_specStep _ _ _ _ _ (h i (by simp)).1 (h i (by simp)).2,
      ih fun j hj => h j (List.mem_cons_of_mem _ hj)]

/-- C9 (amended): `detect_claps` coincides, on every input, with the
declarative description — a sample at index `i` is reported as a peak
iff `i` is an interior index (`5 ≤ i` and `i + 5 < n`, so in
particular nothing is ever reported for sessions of at most 10
samples), its value exceeds the preview threshold, it is strictly
greater than every other value within ±5 samples, and its timestamp
is more than 0.3 s after the previously accepted peak. -/
theorem claim_C9 (rms_values timestamps : List ℚ) (threshold_preview : ℚ) :
    detectClaps rms_values timestamps threshold_preview
      = specDetectClaps rms_values timestamps threshold_preview := by
  unfold detectClaps specDetectClaps
  by_cases hlen : rms_values.length < 10
  · rw [if_pos hlen, List.range_eq_range',
      foldl_specStep_id _ _ _ _ (fun i hi => ?_)]
    rw [List.mem_range'_1] at hi
    omega
  · rw [if_neg hlen]
    push_neg at hlen
    have h1 : List.range' 5 (rms_values.length - 10) ++
        List.range' (rms_values.length - 5) 5
        = List.range' 5 (rms_values.length - 5) := by
      have h := List.range'_append 5 (rms_values.length - 10) 5 1
      rw [one_mul] at h
      rw [show 5 + (rms_values.length - 10) = rms_values.length - 5 by omega]
        at h
      exact h
    have h2 : List.range' 0 5 ++ List.range' 5 (rms_values.length - 5)
        = List.range' 0 rms_values.length := by
      have h := List.range'_append 0 5 (rms_values.length - 5) 1
      rw [one_mul, zero_add] at h
      rw [h, show rms_values.length - 5 + 5 = rms_values.length by omega]
    rw [List.range_eq_range', ← h2, ← h1, List.foldl_append,
      List.foldl_append,
      foldl_specStep_id _ _ _ (List.range' 0 5) (fun i hi => ?_),
      foldl_specStep_id _ _ _ (List.range' (rms_values.length - 5) 5)
        (fun i hi => ?_),
      foldl_clapStep_eq _ _ _ _ (fun i hi => ?_)]
    · rw [List.mem_range'_1] at hi
      omega
    · rw [List.mem_range'_1] at hi
      omega
    · rw [List.mem_range'_1] at hi
      omega

/-- Counterexample to C9 as stated: a 10-sample session with an
isolated spike at index 5.  The spike exceeds the threshold, is
strictly greater than every other value within ±5 samples, and no
peak was accepted before it — the claim reports it as a peak — yet
`detect_claps` returns the empty list, because its scan
`range(5, len - 5)` is empty for 10 samples. -/
theorem claim_C9_cex :
    detectClaps [0, 0, 0, 0, 0, 100, 0, 0, 0, 0]
        [0, 1/10, 2/10, 3/10, 4/10, 5/10, 6/10, 7/10, 8/10, 9/10] 10 = [] ∧
    (10 : ℚ) < ([0, 0, 0, 0, 0, (100 : ℚ), 0, 0, 0, 0]).getD 5 0 ∧
    ∀ j < 10, j ≠ 5 →
      ([0, 0, 0, 0, 0, (100 : ℚ), 0, 0, 0, 0]).getD j 0
        < ([0, 0, 0, 0, 0, (100 : ℚ), 0, 0, 0, 0]).getD 5 0 := by
  refine ⟨?_, by norm_num, ?_⟩
  · norm_num [detectClaps]
  · intro j hj hne
    interval_cases j <;> simp_all

end Calibrate

end WakeBot
